import Mathlib

/-!
Verification of the ai-sales-agent repository.

Part 1 models the Provider Router (spec sections 3, 4.1, 7): the backend
module `providers/registry.py` is referenced by `docs/OSS_MIGRATION.md` but
its code is not in the repository snapshot, so the router is modelled from
the specification text.

Part 2 embeds the frontend code that is present: `frontend/lib/api.ts`
(voice-id mapping, health check, status polling) and
`frontend/components/ProgressSteps.tsx` (pipeline stage order).
-/

namespace AiSales

/-- Modelled from the spec: generic first-match lookup in an association
list, used for the capability-to-provider-list configuration mapping and for
the environment-variable map (the spec's "mapping from capability name to an
ordered list of provider names"). -/
def lookupKV {α : Type} : List (String × α) → String → Option α
  | [], _ => none
  | (k, v) :: rest, key => if k = key then some v else lookupKV rest key

/-- Modelled from the spec: the router's error taxonomy (section 7).
`configuration` is the ConfigurationError (capability unconfigured);
`exhausted` is the ExhaustedProvidersError, carrying every attempted
provider name paired with the failure detail of that attempt. -/
inductive RouterError where
  | configuration (capability : String)
  | exhausted (attempts : List (String × String))
  deriving DecidableEq, Repr

/-- Modelled from the spec: sequential trial of the configured provider
names (section 4.1 steps 2-5). `env` resolves a provider name to its single
operation. Returns the list of providers actually invoked, in order, paired
with the outcome; failures accumulate in `attempts`. -/
def runProviders {Req Res : Type} (env : String → Req → Except String Res) (req : Req) :
    List String → List (String × String) → List String × Except RouterError Res
  | [], attempts => ([], Except.error (RouterError.exhausted attempts))
  | p :: ps, attempts =>
    match env p req with
    | Except.ok r => ([p], Except.ok r)
    | Except.error e =>
      let next := runProviders env req ps (attempts ++ [(p, e)])
      (p :: next.1, next.2)

/-- Modelled from the spec: `execute(capability, request)` (section 4.1
step 1): look up the ordered provider-name list for the capability; if empty
or unconfigured fail with a configuration error, otherwise try the providers
in order. The first component is the ordered list of providers invoked. -/
def execute {Req Res : Type} (config : List (String × List String))
    (env : String → Req → Except String Res) (cap : String) (req : Req) :
    List String × Except RouterError Res :=
  match lookupKV config cap with
  | none => ([], Except.error (RouterError.configuration cap))
  | some [] => ([], Except.error (RouterError.configuration cap))
  | some (p :: ps) => runProviders env req (p :: ps) []

/-- Modelled from the spec: the only persistent state is the immutable
configuration (section 4.1 "State machine: none"). -/
structure RouterState where
  config : List (String × List String)
  deriving DecidableEq, Repr

/-- Modelled from the spec: state-passing form of `execute`; the router only
reads the configuration and forwards the request (sections 4.1 and 5). -/
def executeSt {Req Res : Type} (st : RouterState)
    (env : String → Req → Except String Res) (cap : String) (req : Req) :
    RouterState × (List String × Except RouterError Res) :=
  (st, execute st.config env cap req)

/-- Modelled from the spec: a comma-separated fallback list as in
`PROVIDER_TEXT_FALLBACK=vllm,minimax` (docs/OSS_MIGRATION.md "Fallback
Chains"). -/
def parseProviderList (s : String) : List String :=
  s.splitOn ","

/-- Modelled from the spec: the environment keys holding the ordered
fallback chain for each capability (docs/OSS_MIGRATION.md). -/
def capabilityKeys : List (String × String) :=
  [("text", "PROVIDER_TEXT_FALLBACK"),
   ("speech", "PROVIDER_TTS_FALLBACK"),
   ("video", "PROVIDER_VIDEO_FALLBACK")]

/-- Modelled from the spec: configuration loading — read the fallback chain
for each capability from the environment map once at startup (section 3
"Provider Configuration"). -/
def loadConfig (env : List (String × String)) : List (String × List String) :=
  capabilityKeys.filterMap fun ck =>
    match lookupKV env ck.2 with
    | some v => some (ck.1, parseProviderList v)
    | none => none

/-- The providers invoked by `runProviders` always form a prefix of the
configured list, independent of the accumulated attempts. -/
theorem runProviders_invoked_prefix {Req Res : Type}
    (env : String → Req → Except String Res) (req : Req) :
    ∀ (ps : List String) (attempts : List (String × String)),
      ∃ t, (runProviders env req ps attempts).1 ++ t = ps := by
  intro ps
  induction ps with
  | nil => intro attempts; exact ⟨[], rfl⟩
  | cons p tl ih =>
    intro attempts
    cases h : env p req with
    | ok r => exact ⟨tl, by simp [runProviders, h]⟩
    | error e =>
      obtain ⟨t, ht⟩ := ih (attempts ++ [(p, e)])
      exact ⟨t, by simp [runProviders, h, ht]⟩

/-- If the first `k` providers fail and provider `k` succeeds,
`runProviders` stops at provider `k` with its result. -/
theorem runProviders_first_success {Req Res : Type}
    (env : String → Req → Except String Res) (req : Req) :
    ∀ (ps : List String) (k : Nat) (hk : k < ps.length) (r : Res)
      (attempts : List (String × String)),
      (∀ p ∈ ps.take k, ∃ e, env p req = Except.error e) →
      env (ps.get ⟨k, hk⟩) req = Except.ok r →
      runProviders env req ps attempts = (ps.take (k + 1), Except.ok r) := by
  intro ps
  induction ps with
  | nil => intro k hk; exact absurd hk (Nat.not_lt_zero k)
  | cons p tl ih =>
    intro k hk r attempts hfail hsucc
    cases k with
    | zero =>
      have hp : env p req = Except.ok r := hsucc
      simp [runProviders, hp]
    | succ m =>
      obtain ⟨e, he⟩ := hfail p (by simp)
      have hfail₂ : ∀ q ∈ tl.take m, ∃ e₂, env q req = Except.error e₂ := by
        intro q hq
        exact hfail q (by simp [hq])
      have hm : m < tl.length := Nat.lt_of_succ_lt_succ hk
      have hsucc₂ : env (tl.get ⟨m, hm⟩) req = Except.ok r := hsucc
      have := ih m hm r (attempts ++ [(p, e)]) hfail₂ hsucc₂
      simp [runProviders, he, this]

/-- If every provider in the list fails, `runProviders` exhausts the list:
the outcome is an exhausted-providers error whose recorded attempts extend
the accumulator with one entry per provider, in order, each carrying that
provider's failure detail. -/
theorem runProviders_all_fail {Req Res : Type}
    (env : String → Req → Except String Res) (req : Req) :
    ∀ (ps : List String) (attempts : List (String × String)),
      (∀ p ∈ ps, ∃ e, env p req = Except.error e) →
      ∃ new, runProviders env req ps attempts
               = (ps, Except.error (RouterError.exhausted (attempts ++ new))) ∧
             new.map Prod.fst = ps ∧
             ∀ pr ∈ new, env pr.1 req = Except.error pr.2 := by
  intro ps
  induction ps with
  | nil =>
    intro attempts _
    exact ⟨[], by simp [runProviders], by simp, by simp⟩
  | cons p tl ih =>
    intro attempts hfail
    obtain ⟨e, he⟩ := hfail p (by simp)
    obtain ⟨new, hrun, hmap, hall⟩ :=
      ih (attempts ++ [(p, e)]) (fun q hq => hfail q (by simp [hq]))
    refine ⟨(p, e) :: new, ?_, by simp [hmap], ?_⟩
    · simp only [runProviders, he, hrun]
      simp
    · intro pr hpr
      rcases List.mem_cons.mp hpr with h | h
      · subst h; exact he
      · exact hall pr h

/-- The outcome of `runProviders` is always either a success or an
exhausted-providers error — never anything else. -/
theorem runProviders_outcome {Req Res : Type}
    (env : String → Req → Except String Res) (req : Req) :
    ∀ (ps : List String) (attempts : List (String × String)),
      (∃ r, (runProviders env req ps attempts).2 = Except.ok r) ∨
      (∃ a, (runProviders env req ps attempts).2
              = Except.error (RouterError.exhausted a)) := by
  intro ps
  induction ps with
  | nil => intro attempts; exact Or.inr ⟨attempts, rfl⟩
  | cons p tl ih =>
    intro attempts
    cases h : env p req with
    | ok r => exact Or.inl ⟨r, by simp [runProviders, h]⟩
    | error e =>
      rcases ih (attempts ++ [(p, e)]) with ⟨r, hr⟩ | ⟨a, ha⟩
      · exact Or.inl ⟨r, by simp [runProviders, h, hr]⟩
      · exact Or.inr ⟨a, by simp [runProviders, h, ha]⟩

/-- Demo configuration used by witnesses: the capability "text" has the
ordered fallback chain A, B, C. -/
def demoConfig : List (String × List String) := [("text", ["A", "B", "C"])]

/-- Demo provider environment: provider A fails with a timeout, every other
provider succeeds, echoing its own name. -/
def demoEnv : String → String → Except String String :=
  fun p _ => if p = "A" then Except.error "timeout" else Except.ok ("ok-" ++ p)

/-- Demo provider environment in which every provider fails. -/
def demoEnvAllFail : String → String → Except String String :=
  fun p _ => Except.error ("err-" ++ p)

/-- C1: if providers 1..k-1 fail and provider k succeeds, `execute` returns
provider k's result, and the invoked list is exactly the first k providers —
providers k+1..N are not invoked. -/
theorem execute_first_success {Req Res : Type} (config : List (String × List String))
    (env : String → Req → Except String Res) (cap : String) (req : Req)
    (ps : List String) (k : Nat) (hk : k < ps.length) (r : Res)
    (hconf : lookupKV config cap = some ps)
    (hfail : ∀ p ∈ ps.take k, ∃ e, env p req = Except.error e)
    (hsucc : env (ps.get ⟨k, hk⟩) req = Except.ok r) :
    execute config env cap req = (ps.take (k + 1), Except.ok r) := by
  cases ps with
  | nil => exact absurd hk (Nat.not_lt_zero k)
  | cons p tl =>
    simp only [execute, hconf]
    exact runProviders_first_success env req (p :: tl) k hk r [] hfail hsucc

/-- C1 witness: with chain A, B, C where A fails and B succeeds, `execute`
returns B's result having invoked only A and B. -/
theorem execute_first_success_witness :
    execute demoConfig demoEnv "text" "hello"
      = ((["A", "B", "C"] : List String).take 2, Except.ok "ok-B") := by
  refine execute_first_success demoConfig demoEnv "text" "hello" ["A", "B", "C"] 1
    (by decide) "ok-B" rfl ?_ rfl
  intro p hp
  have hp₂ : p = "A" := by simpa using hp
  exact ⟨"timeout", by simp [demoEnv, hp₂]⟩

/-- C2: when the capability has a nonempty configured list and every
provider in it fails, `execute` fails with an exhausted-providers error
whose attempts name every configured provider in order, each with the
detail of its failure. -/
theorem execute_all_fail {Req Res : Type} (config : List (String × List String))
    (env : String → Req → Except String Res) (cap : String) (req : Req)
    (ps : List String)
    (hconf : lookupKV config cap = some ps) (hne : ps ≠ [])
    (hfail : ∀ p ∈ ps, ∃ e, env p req = Except.error e) :
    ∃ attempts,
      execute config env cap req = (ps, Except.error (RouterError.exhausted attempts)) ∧
      attempts.map Prod.fst = ps ∧
      ∀ pr ∈ attempts, env pr.1 req = Except.error pr.2 := by
  cases ps with
  | nil => exact absurd rfl hne
  | cons p tl =>
    obtain ⟨new, hrun, hmap, hall⟩ := runProviders_all_fail env req (p :: tl) [] hfail
    refine ⟨new, ?_, hmap, hall⟩
    simp only [execute, hconf]
    simpa using hrun

/-- C2 witness: with chain A, B, C where every provider fails, `execute`
reports an exhausted-providers error naming A, B and C with their errors. -/
theorem execute_all_fail_witness :
    ∃ attempts,
      execute demoConfig demoEnvAllFail "text" "hello"
        = (["A", "B", "C"], Except.error (RouterError.exhausted attempts)) ∧
      attempts.map Prod.fst = ["A", "B", "C"] ∧
      ∀ pr ∈ attempts, demoEnvAllFail pr.1 "hello" = Except.error pr.2 :=
  execute_all_fail demoConfig demoEnvAllFail "text" "hello" ["A", "B", "C"] rfl
    (by decide) (fun p _ => ⟨"err-" ++ p, rfl⟩)

/-- C3: a capability whose configured provider list is missing or empty
fails immediately with a configuration error; the invoked-provider list is
empty, i.e. no provider call is made. -/
theorem execute_unconfigured {Req Res : Type} (config : List (String × List String))
    (env : String → Req → Except String Res) (cap : String) (req : Req)
    (hconf : lookupKV config cap = none ∨ lookupKV config cap = some []) :
    execute config env cap req = ([], Except.error (RouterError.configuration cap)) := by
  rcases hconf with h | h <;> simp [execute, h]

/-- C3 witness: the demo configuration has no entry for "speech", so
`execute` fails with a configuration error and invokes no provider. -/
theorem execute_unconfigured_witness :
    execute demoConfig demoEnv "speech" "hello"
      = ([], Except.error (RouterError.configuration "speech")) :=
  execute_unconfigured demoConfig demoEnv "speech" "hello" (Or.inl rfl)

/-- C4: for a fixed configuration, two calls to `execute` with the same
capability invoke providers identically, and the invoked list is a prefix
of the configured list — primary first, then fallbacks in listed order. -/
theorem execute_order_invariant {Req Res : Type} (config : List (String × List String))
    (env : String → Req → Except String Res) (cap : String) (req : Req)
    (ps : List String) (hconf : lookupKV config cap = some ps) :
    (execute config env cap req).1 = (execute config env cap req).1 ∧
    ∃ t, (execute config env cap req).1 ++ t = ps := by
  refine ⟨rfl, ?_⟩
  cases ps with
  | nil => exact ⟨[], by simp [execute, hconf]⟩
  | cons p tl =>
    simp only [execute, hconf]
    exact runProviders_invoked_prefix env req (p :: tl) []

/-- C4 witness: with the demo configuration the invoked providers are a
prefix of the configured chain A, B, C. -/
theorem execute_order_invariant_witness :
    (execute demoConfig demoEnv "text" "hello").1
        = (execute demoConfig demoEnv "text" "hello").1 ∧
    ∃ t, (execute demoConfig demoEnv "text" "hello").1 ++ t = ["A", "B", "C"] :=
  execute_order_invariant demoConfig demoEnv "text" "hello" ["A", "B", "C"] rfl

/-- C5: the caller of `execute` observes only a success, a configuration
error, or an exhausted-providers error; an individual provider's error
never surfaces on its own. -/
theorem execute_outcome_taxonomy {Req Res : Type} (config : List (String × List String))
    (env : String → Req → Except String Res) (cap : String) (req : Req) :
    (∃ r, (execute config env cap req).2 = Except.ok r) ∨
    (execute config env cap req).2 = Except.error (RouterError.configuration cap) ∨
    (∃ a, (execute config env cap req).2 = Except.error (RouterError.exhausted a)) := by
  cases hconf : lookupKV config cap with
  | none => exact Or.inr (Or.inl (by simp [execute, hconf]))
  | some ps =>
    cases ps with
    | nil => exact Or.inr (Or.inl (by simp [execute, hconf]))
    | cons p tl =>
      have h := runProviders_outcome env req (p :: tl) []
      rcases h with ⟨r, hr⟩ | ⟨a, ha⟩
      · exact Or.inl ⟨r, by simp only [execute, hconf]; exact hr⟩
      · exact Or.inr (Or.inr ⟨a, by simp only [execute, hconf]; exact ha⟩)

/-- C6: `execute` is a stateless dispatch: the configuration state is
identical before and after a call, and the outcome is a pure function of
the immutable configuration. -/
theorem executeSt_preserves_config {Req Res : Type} (st : RouterState)
    (env : String → Req → Except String Res) (cap : String) (req : Req) :
    (executeSt st env cap req).1 = st ∧
    (executeSt st env cap req).2 = execute st.config env cap req :=
  ⟨rfl, rfl⟩

/-- Looking up in the concatenation of two association lists finds the
entry of the first list when present, and otherwise falls back to the
second. -/
theorem lookupKV_append {α : Type} (a b : List (String × α)) (key : String) :
    lookupKV (a ++ b) key =
      (match lookupKV a key with
       | some v => some v
       | none => lookupKV b key) := by
  induction a with
  | nil => simp [lookupKV]
  | cons kv rest ih =>
    obtain ⟨k₁, v₁⟩ := kv
    by_cases h : k₁ = key <;> simp [lookupKV, h, ih]

/-- C7: configuration loading is idempotent — loading the same environment
twice (and even loading a doubled environment) yields functionally
identical ordered provider lists. -/
theorem loadConfig_idempotent (env : List (String × String)) :
    loadConfig env = loadConfig env ∧ loadConfig (env ++ env) = loadConfig env := by
  refine ⟨rfl, ?_⟩
  have hkv : ∀ (k : String), lookupKV (env ++ env) k = lookupKV env k := by
    intro k
    rw [lookupKV_append]
    cases h : lookupKV env k <;> simp
  simp [loadConfig, hkv]

/-! Part 2: the frontend code present under `frontend/`. -/

/-- The default API base URL from `frontend/lib/api.ts`
(`process.env.NEXT_PUBLIC_API_URL` defaulting to this value). -/
def API_BASE : String := "http://localhost:8000"

/-- Frontend pipeline step, from the `GenerationStatus.step` union type in
`frontend/lib/api.ts` and the `Step` type in `ProgressSteps.tsx` (the
component adds `idle`, which never comes from the backend mapping). -/
inductive Step where
  | research | script | voice | video | done | error
  deriving DecidableEq, Repr

/-- The `stepMap` record of `pollForCompletion` in `frontend/lib/api.ts`:
backend job statuses paired with the frontend step they display as. -/
def stepMapEntries : List (String × Step) :=
  [("pending", Step.research),
   ("researching", Step.research),
   ("scripting", Step.script),
   ("generating_voice", Step.voice),
   ("generating_video", Step.video),
   ("merging", Step.video),
   ("completed", Step.done),
   ("failed", Step.error)]

/-- The lookup `stepMap[status.status] || 'research'` in
`frontend/lib/api.ts`: unknown statuses default to the research step. -/
def stepMapLookup (status : String) : Step :=
  (lookupKV stepMapEntries status).getD Step.research

/-- The ids of the `steps` array rendered by `ProgressSteps.tsx`. -/
def stepsIds : List String := ["research", "script", "voice", "video"]

/-- The `stepOrder` list used by `getStepStatus` in `ProgressSteps.tsx`. -/
def stepOrder : List String := ["research", "script", "voice", "video", "done"]

/-- JavaScript `Array.prototype.indexOf`: index of the first occurrence, or
-1 when absent. -/
def jsIndexOf (l : List String) (s : String) : Int :=
  match l.findIdx? (fun x => x == s) with
  | some i => (i : Int)
  | none => -1

/-- `getStepStatus` from `ProgressSteps.tsx`: classifies a step indicator
relative to the current step as complete, active, error or pending. -/
def getStepStatus (currentStep stepId : String) : String :=
  let currentIndex := jsIndexOf stepOrder currentStep
  let stepIndex := jsIndexOf stepOrder stepId
  if currentStep = "done" then "complete"
  else if currentStep = "error" then
    (if stepIndex < currentIndex then "complete"
     else if stepIndex = currentIndex then "error"
     else "pending")
  else if stepIndex < currentIndex then "complete"
  else if stepIndex = currentIndex then "active"
  else "pending"

/-- The backend job statuses in the order the pipeline passes through them
(pending, researching, scripting, generating_voice, generating_video,
merging, completed), as named by the `stepMap` in `frontend/lib/api.ts`. -/
def backendStatusOrder : List String :=
  ["pending", "researching", "scripting", "generating_voice",
   "generating_video", "merging", "completed"]

/-- A backend response to one status poll, as read by `pollForCompletion`
in `frontend/lib/api.ts`: the HTTP `response.ok` flag and the JSON fields
the function inspects. Payloads are modelled as opaque strings. -/
structure StatusResponse where
  ok : Bool
  status : String
  progress : Nat
  research : Option String
  script : Option String
  audio_path : Option String
  final_path : Option String
  error : Option String
  deriving DecidableEq, Repr

/-- The `GenerateResponse` produced on completion in `frontend/lib/api.ts`. -/
structure GenerateResponse where
  success : Bool
  research : Option String
  script : Option String
  audio_url : Option String
  video_url : Option String
  deriving DecidableEq, Repr

/-- The URL rewrite `API_BASE + "/outputs/" + path.split("/").pop()` used
for `audio_url` and `video_url` in `frontend/lib/api.ts`. -/
def outputUrl (path : String) : String :=
  API_BASE ++ "/outputs/" ++ (path.splitOn "/").getLastD ""

/-- The successful `GenerateResponse` built by `pollForCompletion` when a
poll reports status "completed". -/
def completedResponse (r : StatusResponse) : GenerateResponse :=
  { success := true
    research := r.research
    script := r.script
    audio_url := r.audio_path.map outputUrl
    video_url := r.final_path.map outputUrl }

/-- Outcome of `pollForCompletion`: a returned response or a thrown error
message. -/
inductive PollOutcome where
  | success (r : GenerateResponse)
  | thrown (msg : String)
  deriving DecidableEq, Repr

/-- One iteration of the polling loop in `pollForCompletion`
(`frontend/lib/api.ts`): a non-ok HTTP response throws, status "completed"
returns, status "failed" throws the reported error (defaulting to
"Generation failed"), and any other status continues polling (`none`). -/
def pollStep (r : StatusResponse) : Option PollOutcome :=
  if r.ok = false then some (PollOutcome.thrown "Failed to check status")
  else if r.status = "completed" then some (PollOutcome.success (completedResponse r))
  else if r.status = "failed" then
    some (PollOutcome.thrown (r.error.getD "Generation failed"))
  else none

/-- A status response that keeps the polling loop going: the request
succeeded and the job is neither completed nor failed. -/
def nonTerminal (r : StatusResponse) : Bool :=
  r.ok && !(r.status == "completed") && !(r.status == "failed")

/-- The `for` loop of `pollForCompletion`, with the remaining attempts as
fuel; `i` is the index of the next poll, and the backend's answer to poll
`j` is `resp j`. Returns the number of status requests issued and the
outcome; exhausting the fuel throws "Generation timed out". -/
def pollLoop (resp : Nat → StatusResponse) : Nat → Nat → Nat × PollOutcome
  | _, 0 => (0, PollOutcome.thrown "Generation timed out")
  | i, fuel + 1 =>
    match pollStep (resp i) with
    | some o => (1, o)
    | none =>
      let next := pollLoop resp (i + 1) fuel
      (next.1 + 1, next.2)

/-- `maxAttempts = 360` in `pollForCompletion` (`frontend/lib/api.ts`). -/
def maxAttempts : Nat := 360

/-- `pollForCompletion` from `frontend/lib/api.ts`, abstracted over the
backend's sequence of status responses. -/
def pollForCompletion (resp : Nat → StatusResponse) : Nat × PollOutcome :=
  pollLoop resp 0 maxAttempts

/-- The `GenerateRequest` sent by the frontend form (`frontend/lib/api.ts`). -/
structure GenerateRequest where
  company_url : String
  sender_name : String
  voice_id : String
  deriving DecidableEq, Repr

/-- `VOICE_ID_MAP` from `frontend/lib/api.ts`: frontend voice ids paired
with backend voice ids. -/
def VOICE_ID_MAP : List (String × String) :=
  [("male-1", "male-qn-qingse"),
   ("male-2", "male-qn-jingying"),
   ("female-1", "female-shaonv"),
   ("female-2", "female-yujie")]

/-- The mapping `VOICE_ID_MAP[request.voice_id] || request.voice_id` in
`generateVideo`: unknown voice ids pass through unchanged. -/
def backendVoiceId (v : String) : String :=
  (lookupKV VOICE_ID_MAP v).getD v

/-- The JSON body `generateVideo` posts to `/api/generate`
(`frontend/lib/api.ts`). -/
structure BackendGenerateBody where
  company_url : String
  our_product : String
  voice_id : String
  skip_video : Bool
  deriving DecidableEq, Repr

/-- Construction of the request body in `generateVideo`. -/
def generateBody (req : GenerateRequest) : BackendGenerateBody :=
  { company_url := req.company_url
    our_product := "AI consulting services from " ++ req.sender_name
    voice_id := backendVoiceId req.voice_id
    skip_video := false }

/-- The resolved value of the `/health` fetch in `healthCheck`: either a
response with its `ok` flag, or a rejection. -/
structure FetchResponse where
  ok : Bool
  deriving DecidableEq, Repr

/-- `healthCheck` from `frontend/lib/api.ts`: returns `response.ok` when
the fetch resolves and `false` when it rejects; it never throws (the
function is total). -/
def healthCheck (fetchResult : Except String FetchResponse) : Bool :=
  match fetchResult with
  | Except.ok resp => resp.ok
  | Except.error _ => false

/-- The request count of `pollLoop` never exceeds the fuel. -/
theorem pollLoop_fst_le (resp : Nat → StatusResponse) :
    ∀ (fuel i : Nat), (pollLoop resp i fuel).1 ≤ fuel := by
  intro fuel
  induction fuel with
  | zero => intro i; exact Nat.le_refl 0
  | succ f ih =>
    intro i
    cases h : pollStep (resp i) with
    | some o => simp [pollLoop, h]
    | none =>
      simp only [pollLoop, h]
      exact Nat.succ_le_succ (ih (i + 1))

/-- If the first `k` polls keep the loop going and poll `k` is terminal
with outcome `o`, `pollLoop` stops there having made `k + 1` requests. -/
theorem pollLoop_stop (resp : Nat → StatusResponse) :
    ∀ (fuel i k : Nat) (o : PollOutcome), k < fuel →
      (∀ j, j < k → pollStep (resp (i + j)) = none) →
      pollStep (resp (i + k)) = some o →
      pollLoop resp i fuel = (k + 1, o) := by
  intro fuel
  induction fuel with
  | zero => intro i k o hk; exact absurd hk (Nat.not_lt_zero k)
  | succ f ih =>
    intro i k o hk hpre hstop
    cases k with
    | zero =>
      have h0 : pollStep (resp i) = some o := by simpa using hstop
      simp [pollLoop, h0]
    | succ m =>
      have h0 : pollStep (resp i) = none := by simpa using hpre 0 (Nat.succ_pos m)
      have hpre₂ : ∀ j, j < m → pollStep (resp (i + 1 + j)) = none := by
        intro j hj
        have he : i + (j + 1) = i + 1 + j := by omega
        rw [← he]
        exact hpre (j + 1) (Nat.succ_lt_succ hj)
      have hstop₂ : pollStep (resp (i + 1 + m)) = some o := by
        have he : i + (m + 1) = i + 1 + m := by omega
        rw [← he]
        exact hstop
      have hrec := ih (i + 1) m o (Nat.lt_of_succ_lt_succ hk) hpre₂ hstop₂
      simp [pollLoop, h0, hrec]

/-- If every poll within the fuel keeps the loop going, `pollLoop` exhausts
the fuel and throws the timeout error. -/
theorem pollLoop_timeout (resp : Nat → StatusResponse) :
    ∀ (fuel i : Nat), (∀ j, j < fuel → pollStep (resp (i + j)) = none) →
      pollLoop resp i fuel = (fuel, PollOutcome.thrown "Generation timed out") := by
  intro fuel
  induction fuel with
  | zero => intro i _; rfl
  | succ f ih =>
    intro i h
    have h0 : pollStep (resp i) = none := by simpa using h 0 (Nat.succ_pos f)
    have h₂ : ∀ j, j < f → pollStep (resp (i + 1 + j)) = none := by
      intro j hj
      have he : i + (j + 1) = i + 1 + j := by omega
      rw [← he]
      exact h (j + 1) (Nat.succ_lt_succ hj)
    simp [pollLoop, h0, ih (i + 1) h₂]

/-- A poll response keeps the loop going exactly when it is `nonTerminal`:
the request succeeded and the status is neither completed nor failed. -/
theorem nonTerminal_iff_pollStep (r : StatusResponse) :
    nonTerminal r = true ↔ pollStep r = none := by
  by_cases h1 : r.ok = true <;> by_cases h2 : r.status = "completed" <;>
    by_cases h3 : r.status = "failed" <;>
      simp [nonTerminal, pollStep, h1, h2, h3, Bool.not_eq_true] at *

/-- C8: the pipeline advances research → script → voice → video: every
backend status maps to one of the four stages or done/error, the client's
step list is exactly those four stages in that order (with done appended in
its internal order), the backend's own status progression maps to the
stages in nondecreasing pipeline order, and the client marks steps before
the current one complete, the current one active, and later ones pending. -/
theorem pipeline_stage_order :
    (∀ s : String, stepMapLookup s ∈
        [Step.research, Step.script, Step.voice, Step.video, Step.done, Step.error]) ∧
    stepsIds = ["research", "script", "voice", "video"] ∧
    stepOrder = stepsIds ++ ["done"] ∧
    backendStatusOrder.map stepMapLookup
      = [Step.research, Step.research, Step.script, Step.voice,
         Step.video, Step.video, Step.done] ∧
    stepMapLookup "failed" = Step.error ∧
    stepsIds.map (getStepStatus "voice")
      = ["complete", "complete", "active", "pending"] := by
  refine ⟨?_, rfl, rfl, by decide, by decide, by decide⟩
  intro s
  cases h : stepMapLookup s <;> decide

/-- C9: `pollForCompletion` issues at most 360 status requests; if the
first `i` responses are non-terminal then at response `i` it throws on a
non-ok response, returns the successful result on status "completed", and
throws the reported error on status "failed", each after exactly `i + 1`
requests; and if all 360 responses are non-terminal it throws
"Generation timed out" after exactly 360 requests. -/
theorem pollForCompletion_spec (resp : Nat → StatusResponse) :
    (pollForCompletion resp).1 ≤ maxAttempts ∧
    (∀ i, i < maxAttempts → (∀ j, j < i → nonTerminal (resp j) = true) →
      ((resp i).ok = false →
        pollForCompletion resp = (i + 1, PollOutcome.thrown "Failed to check status")) ∧
      ((resp i).ok = true → (resp i).status = "completed" →
        pollForCompletion resp
            = (i + 1, PollOutcome.success (completedResponse (resp i))) ∧
        (completedResponse (resp i)).success = true) ∧
      ((resp i).ok = true → (resp i).status = "failed" →
        pollForCompletion resp
          = (i + 1, PollOutcome.thrown ((resp i).error.getD "Generation failed")))) ∧
    ((∀ j, j < maxAttempts → nonTerminal (resp j) = true) →
      pollForCompletion resp = (maxAttempts, PollOutcome.thrown "Generation timed out")) := by
  refine ⟨pollLoop_fst_le resp maxAttempts 0, ?_, ?_⟩
  · intro i hi hpre
    have hpre₂ : ∀ j, j < i → pollStep (resp (0 + j)) = none := by
      intro j hj
      rw [Nat.zero_add]
      exact (nonTerminal_iff_pollStep (resp j)).mp (hpre j hj)
    have hne : ("failed" : String) ≠ "completed" := by decide
    refine ⟨?_, ?_, ?_⟩
    · intro hok
      refine pollLoop_stop resp maxAttempts 0 i _ hi hpre₂ ?_
      rw [Nat.zero_add]
      simp [pollStep, hok]
    · intro hok hc
      refine ⟨pollLoop_stop resp maxAttempts 0 i _ hi hpre₂ ?_, rfl⟩
      rw [Nat.zero_add]
      simp [pollStep, hok, hc]
    · intro hok hf
      refine pollLoop_stop resp maxAttempts 0 i _ hi hpre₂ ?_
      rw [Nat.zero_add]
      simp [pollStep, hok, hf, hne]
  · intro h
    refine pollLoop_timeout resp maxAttempts 0 ?_
    intro j hj
    rw [Nat.zero_add]
    exact (nonTerminal_iff_pollStep (resp j)).mp (h j hj)

/-- A backend that reports completion on every poll, used as the witness
input for the polling claim. -/
def constantCompleted : Nat → StatusResponse := fun _ =>
  { ok := true, status := "completed", progress := 100, research := none,
    script := none, audio_path := none, final_path := none, error := none }

/-- C9 witness: against a backend that immediately reports completion,
`pollForCompletion` returns the successful result after one request. -/
theorem pollForCompletion_spec_witness :
    pollForCompletion constantCompleted
      = (1, PollOutcome.success (completedResponse (constantCompleted 0))) :=
  (((pollForCompletion_spec constantCompleted).2.1 0 (by decide)
      (fun j hj => absurd hj (Nat.not_lt_zero j))).2.1 rfl rfl).1

/-- C10: `generateVideo` sends the mapped backend voice id for each of the
four known frontend ids and passes any other voice id through unchanged;
`healthCheck` is total (never throws), returning true exactly when the
health fetch resolves with an ok response and false when it rejects. -/
theorem voiceMap_healthCheck_spec :
    (∀ req : GenerateRequest,
      (req.voice_id = "male-1" → (generateBody req).voice_id = "male-qn-qingse") ∧
      (req.voice_id = "male-2" → (generateBody req).voice_id = "male-qn-jingying") ∧
      (req.voice_id = "female-1" → (generateBody req).voice_id = "female-shaonv") ∧
      (req.voice_id = "female-2" → (generateBody req).voice_id = "female-yujie") ∧
      (req.voice_id ∉ ["male-1", "male-2", "female-1", "female-2"] →
        (generateBody req).voice_id = req.voice_id)) ∧
    (∀ fetchResult : Except String FetchResponse,
      (healthCheck fetchResult = true ↔
        ∃ resp, fetchResult = Except.ok resp ∧ resp.ok = true) ∧
      (∀ e, fetchResult = Except.error e → healthCheck fetchResult = false)) := by
  constructor
  · intro req
    refine ⟨?_, ?_, ?_, ?_, ?_⟩ <;> intro h
    case _ => show backendVoiceId req.voice_id = _; rw [h]; decide
    case _ => show backendVoiceId req.voice_id = _; rw [h]; decide
    case _ => show backendVoiceId req.voice_id = _; rw [h]; decide
    case _ => show backendVoiceId req.voice_id = _; rw [h]; decide
    case _ =>
      have h1 : req.voice_id ≠ "male-1" := fun he => h (by simp [he])
      have h2 : req.voice_id ≠ "male-2" := fun he => h (by simp [he])
      have h3 : req.voice_id ≠ "female-1" := fun he => h (by simp [he])
      have h4 : req.voice_id ≠ "female-2" := fun he => h (by simp [he])
      show backendVoiceId req.voice_id = req.voice_id
      simp [backendVoiceId, VOICE_ID_MAP, lookupKV,
        Ne.symm h1, Ne.symm h2, Ne.symm h3, Ne.symm h4]
  · intro fetchResult
    constructor
    · cases fetchResult with
      | ok resp => simp [healthCheck]
      | error e => simp [healthCheck]
    · intro e he
      rw [he]
      rfl

/-- C10 witness: a known voice id is mapped, an unknown one passes through,
and a rejected health fetch yields false. -/
theorem voiceMap_healthCheck_spec_witness :
    (generateBody ⟨"https://example.com", "Ada", "male-1"⟩).voice_id = "male-qn-qingse" ∧
    (generateBody ⟨"https://example.com", "Ada", "my-voice"⟩).voice_id = "my-voice" ∧
    healthCheck (Except.error "offline") = false :=
  ⟨(voiceMap_healthCheck_spec.1 ⟨"https://example.com", "Ada", "male-1"⟩).1 rfl,
   (voiceMap_healthCheck_spec.1 ⟨"https://example.com", "Ada", "my-voice"⟩).2.2.2.2
     (by decide),
   (voiceMap_healthCheck_spec.2 (Except.error "offline")).2 "offline" rfl⟩

end AiSales
